import Mathlib

/-!
Verification development for the event-notification subsystem
(`src/server/ua_subscription_events.c` of open62541).

Shallow embedding: the external collaborators of the file (the nodestore,
`UA_Server_translateBrowsePathToNodeIds`, `UA_Server_readValue`,
`UA_Server_writeValue`, `isNodeInTree`, `MonitoredItem_ensureQueueSpace`,
`UA_Server_addObjectNode`, `UA_Server_deleteNode`, and the
`UA_Server_forEachChildNodeCall` iteration used to discover subtype /
ancestor closures) are modeled as explicit oracle parameters, while every
function defined in the C file itself is translated into a Lean definition
that mirrors its control flow.  Node ids and qualified names are modeled
as natural numbers; variants are either empty (the state produced by
`UA_Variant_init` / zero-initialised arrays) or carry an abstract value.
Allocation (`UA_malloc`, `UA_Array_new`) is modeled as succeeding.
-/

namespace UAEvents

/-- Status codes, with the numeric values of the C headers. -/
abbrev UA_StatusCode := Nat

def UA_STATUSCODE_GOOD : UA_StatusCode := 0
def UA_STATUSCODE_BADINTERNALERROR : UA_StatusCode := 0x80020000
def UA_STATUSCODE_BADOUTOFMEMORY : UA_StatusCode := 0x80030000
def UA_STATUSCODE_BADNOTSUPPORTED : UA_StatusCode := 0x803D0000
def UA_STATUSCODE_BADNOMATCH : UA_StatusCode := 0x806F0000
def UA_STATUSCODE_BADEVENTFILTERINVALID : UA_StatusCode := 0x80710000
def UA_STATUSCODE_BADINVALIDARGUMENT : UA_StatusCode := 0x80AB0000

/-- Well-known node ids of namespace zero used by the C file. -/
def UA_NS0ID_ORGANIZES : Nat := 35
def UA_NS0ID_AGGREGATES : Nat := 44
def UA_NS0ID_HASSUBTYPE : Nat := 45
def UA_NS0ID_HASPROPERTY : Nat := 46
def UA_NS0ID_HASCOMPONENT : Nat := 47
def UA_NS0ID_OBJECTSFOLDER : Nat := 85
def UA_NS0ID_BASEEVENTTYPE : Nat := 2041

/-- Codes for the qualified names (strings in the C source) that the file
resolves on event instances. -/
def nameEventId : Nat := 0
def nameEventType : Nat := 1
def nameSourceNode : Nat := 2
def nameReceiveTime : Nat := 3

/-- A variant value: `UA_Variant_init` produces the empty variant, a read
may fill in an abstract payload. -/
inductive UA_Variant
  | empty
  | val (v : Nat)
deriving DecidableEq

/-- Result of `UA_Server_translateBrowsePathToNodeIds`: status, number of
targets, and the node id of `targets[0].targetId.nodeId` (meaningful when
`targetsSize` is positive).  `UA_BrowsePathResult_init` zeroes the struct. -/
structure UA_BrowsePathResult where
  statusCode : UA_StatusCode
  targetsSize : Nat
  target0 : Nat
deriving DecidableEq

def UA_BrowsePathResult.initial : UA_BrowsePathResult :=
  { statusCode := UA_STATUSCODE_GOOD, targetsSize := 0, target0 := 0 }

/-- The failure test applied to a browse-path result throughout the file:
`bpr.statusCode != UA_STATUSCODE_GOOD || bpr.targetsSize < 1`
(`targetsSize` is a `size_t`, so `< 1` is `= 0`). -/
def bprFailed (b : UA_BrowsePathResult) : Bool :=
  !(b.statusCode == UA_STATUSCODE_GOOD) || b.targetsSize == 0

/-- Loop body of `UA_Event_findVariableNode` (lines 128-153): walk the
discovered reference kinds; once a translation succeeds (`nodeFound`) no
further attempt overwrites `out`, so the first success is returned; while
no attempt has succeeded, `out` always holds the result of the latest
attempt. -/
def findVariableNodeLoop (translate : Nat → UA_BrowsePathResult) :
    List Nat → UA_BrowsePathResult → UA_BrowsePathResult
  | [], out => out
  | k :: rest, _out =>
    if (translate k).statusCode == UA_STATUSCODE_GOOD then
      translate k
    else
      findVariableNodeLoop translate rest (translate k)

/-- `UA_Event_findVariableNode` (lines 113-154).  `iterStatus` is the
status of the `UA_Server_forEachChildNodeCall` walk that discovers the
subtypes of the Aggregates reference type, `kinds` is the discovered list,
`translate k` is the external `UA_Server_translateBrowsePathToNodeIds` on
the browse path built from reference kind `k` (the caller bakes in the
starting node, target name and path depth), and `out0` is the
caller-initialised output struct. -/
def UA_Event_findVariableNode (iterStatus : UA_StatusCode) (kinds : List Nat)
    (translate : Nat → UA_BrowsePathResult) (out0 : UA_BrowsePathResult) :
    UA_BrowsePathResult :=
  findVariableNodeLoop translate kinds
    (if iterStatus ≠ UA_STATUSCODE_GOOD
     then { out0 with statusCode := iterStatus } else out0)

/-- One notification queue pair: the watcher's local queue plus the owning
subscription's global queue, with their size counters (`mon->queue` /
`mon->queueSize` and `mon->subscription->notificationQueue` /
`notificationQueueSize`).  Queue entries are the event field lists the
notifications carry. -/
structure QueueState where
  monQueue : List (List UA_Variant)
  monQueueSize : Nat
  subQueue : List (List UA_Variant)
  subQueueSize : Nat
deriving DecidableEq

/-- The external collaborators of the C file, as one oracle record.
`translate startNode refKind targetName pathSize` is
`UA_Server_translateBrowsePathToNodeIds`; `aggregatesSubtypes` (and its
walk status) is the list produced by `findAllSubtypesNodeIteratorCallback`
recursing from the Aggregates reference type over the external nodestore;
`isSubtypeOf a b` is `isNodeInTree(a, b, HasSubtype)`;
`inObjectsFolderTree o` is `isNodeInTree(o, ObjectsFolder,
{Organizes, HasComponent})`; `ensureQueueSpace` is
`MonitoredItem_ensureQueueSpace`; `deleteNodeStatus` is the result of
`UA_Server_deleteNode` on the event instance. -/
structure ExternalServer where
  aggregatesSubtypes : List Nat
  aggregatesIterStatus : UA_StatusCode
  translate : Nat → Nat → Nat → Nat → UA_BrowsePathResult
  readValue : Nat → UA_StatusCode × UA_Variant
  isSubtypeOf : Nat → Nat → Bool
  inObjectsFolderTree : Nat → Bool
  ensureQueueSpace : QueueState → QueueState
  deleteNodeStatus : UA_StatusCode

/-- `UA_Event_findVariableNode` as invoked on a concrete server: look for
property `name` at depth `size` starting from node `start`. -/
def serverFindVariableNode (srv : ExternalServer) (start name size : Nat) :
    UA_BrowsePathResult :=
  UA_Event_findVariableNode srv.aggregatesIterStatus srv.aggregatesSubtypes
    (fun k => srv.translate start k name size) UA_BrowsePathResult.initial

/-- `isValidEvent` (lines 234-248): resolve the `EventType` property of the
event instance and test membership of resolved target in the HasSubtype
tree rooted at `validEventParent`. -/
def isValidEvent (srv : ExternalServer) (validEventParent : Nat)
    (eventNode : Nat) : Bool :=
  if bprFailed (serverFindVariableNode srv eventNode nameEventType 1) then
    false
  else
    srv.isSubtypeOf (serverFindVariableNode srv eventNode nameEventType 1).target0
      validEventParent

/-- `whereClausesApply` (lines 251-262): returns `(status, result)`.  The
result flag is always true; the status is NotSupported exactly when the
content filter has at least one element. -/
def whereClausesApply (whereClauseSize : Nat) : UA_StatusCode × Bool :=
  if whereClauseSize = 0 then (UA_STATUSCODE_GOOD, true)
  else (UA_STATUSCODE_BADNOTSUPPORTED, true)

/-- One select clause (`UA_SimpleAttributeOperand`): declared type id, the
target name of the browse path (`rpe.targetName = *name`) and the declared
path depth (`browsePathSize`). -/
structure UA_SimpleAttributeOperand where
  typeDefinitionId : Nat
  browsePathName : Nat
  browsePathSize : Nat
deriving DecidableEq

/-- `UA_EventFilter`: select clauses plus the element count of the
where-clause content filter. -/
structure UA_EventFilter where
  selectClauses : List UA_SimpleAttributeOperand
  whereClauseSize : Nat
deriving DecidableEq

/-- The browse-path result obtained for clause `c` in the filter loop
(lines 310-313). -/
def clauseBprOf (srv : ExternalServer) (eventNode : Nat)
    (c : UA_SimpleAttributeOperand) : UA_BrowsePathResult :=
  serverFindVariableNode srv eventNode c.browsePathName c.browsePathSize

/-- The type-check condition of lines 301-302, verbatim:
`!UA_NodeId_equal(&selectClauses[i].typeDefinitionId, &baseEventTypeId)
 && !isValidEvent(server, &selectClauses[0].typeDefinitionId, eventNode)`.
Note that the `isValidEvent` argument is clause 0's declared type, not
clause `i`'s. -/
def clauseTypeMismatch (srv : ExternalServer) (c : UA_SimpleAttributeOperand)
    (typeDef0 : Nat) (eventNode : Nat) : Bool :=
  !(c.typeDefinitionId == UA_NS0ID_BASEEVENTTYPE) &&
    !(isValidEvent srv typeDef0 eventNode)

/-- The field produced for a clause that reached the value-read step
(lines 326-329): the value read from the resolved target, or the empty
variant when the read fails. -/
def clauseField (srv : ExternalServer) (eventNode : Nat)
    (c : UA_SimpleAttributeOperand) : UA_Variant :=
  if (srv.readValue (clauseBprOf srv eventNode c).target0).1 ==
      UA_STATUSCODE_GOOD then
    (srv.readValue (clauseBprOf srv eventNode c).target0).2
  else UA_Variant.empty

/-- The select-clause loop of `UA_Server_filterEvent` (lines 300-341),
returning the final status and the field array.  The array produced by
`UA_Array_new` is zero-initialised, so the early `return BADNOTSUPPORTED`
of line 331 leaves every later field as the empty variant. -/
def filterEventLoop (srv : ExternalServer) (whereClauseSize : Nat)
    (typeDef0 : Nat) (eventNode : Nat) :
    List UA_SimpleAttributeOperand → UA_StatusCode × List UA_Variant
  | [] => (UA_STATUSCODE_GOOD, [])
  | c :: rest =>
    if clauseTypeMismatch srv c typeDef0 eventNode then
      ((filterEventLoop srv whereClauseSize typeDef0 eventNode rest).1,
       UA_Variant.empty ::
         (filterEventLoop srv whereClauseSize typeDef0 eventNode rest).2)
    else if bprFailed (clauseBprOf srv eventNode c) then
      ((filterEventLoop srv whereClauseSize typeDef0 eventNode rest).1,
       UA_Variant.empty ::
         (filterEventLoop srv whereClauseSize typeDef0 eventNode rest).2)
    else if (whereClausesApply whereClauseSize).2 then
      if (whereClausesApply whereClauseSize).1 ==
          UA_STATUSCODE_BADNOTSUPPORTED then
        (UA_STATUSCODE_BADNOTSUPPORTED,
         clauseField srv eventNode c ::
           List.replicate rest.length UA_Variant.empty)
      else
        ((filterEventLoop srv whereClauseSize typeDef0 eventNode rest).1,
         clauseField srv eventNode c ::
           (filterEventLoop srv whereClauseSize typeDef0 eventNode rest).2)
    else
      ((filterEventLoop srv whereClauseSize typeDef0 eventNode rest).1,
       UA_Variant.empty ::
         (filterEventLoop srv whereClauseSize typeDef0 eventNode rest).2)

/-- `UA_Server_filterEvent` (lines 265-342): reject an empty select-clause
list with BadEventFilterInvalid, otherwise run the clause loop.  The
second component is the `notification->fields.eventFields` array. -/
def UA_Server_filterEvent (srv : ExternalServer) (eventNode : Nat)
    (filter : UA_EventFilter) : UA_StatusCode × List UA_Variant :=
  match filter.selectClauses with
  | [] => (UA_STATUSCODE_BADEVENTFILTERINVALID, [])
  | c0 :: rest =>
    filterEventLoop srv filter.whereClauseSize c0.typeDefinitionId eventNode
      (c0 :: rest)

/-- The `selectClauses[0].typeDefinitionId` value a filter hands to
`isValidEvent` (0 when the clause list is empty, in which case the loop is
never entered). -/
def filterTypeDef0 (filter : UA_EventFilter) : Nat :=
  match filter.selectClauses with
  | [] => 0
  | c0 :: _ => c0.typeDefinitionId

/-- A monitored item as this file uses it: its event filter
(`mon->filter.eventFilter`).  Its queues live in a `QueueState`. -/
structure UA_MonitoredItem where
  eventFilter : UA_EventFilter
deriving DecidableEq

/-- `UA_Event_addEventToMonitoredItem` (lines 405-426): build the
notification by filtering the event; on a non-Good filter status free the
notification and return without touching any queue; otherwise trim the
queue via the external `MonitoredItem_ensureQueueSpace` and append the
notification to the monitored item's queue and to the subscription's
global queue, bumping both size counters. -/
def UA_Event_addEventToMonitoredItem (srv : ExternalServer) (event : Nat)
    (mon : UA_MonitoredItem) (qs : QueueState) : UA_StatusCode × QueueState :=
  if (UA_Server_filterEvent srv event mon.eventFilter).1 ≠
      UA_STATUSCODE_GOOD then
    ((UA_Server_filterEvent srv event mon.eventFilter).1, qs)
  else
    (UA_STATUSCODE_GOOD,
     { monQueue := (srv.ensureQueueSpace qs).monQueue ++
         [(UA_Server_filterEvent srv event mon.eventFilter).2],
       monQueueSize := (srv.ensureQueueSpace qs).monQueueSize + 1,
       subQueue := (srv.ensureQueueSpace qs).subQueue ++
         [(UA_Server_filterEvent srv event mon.eventFilter).2],
       subQueueSize := (srv.ensureQueueSpace qs).subQueueSize + 1 })

/-- The fan-out loop of `UA_Server_triggerEvent` (lines 457-473): the
ancestor walk over the external nodestore and the per-node monitored-item
lists flatten into one list of (monitored item, its queue pair), visited
in order; the first non-Good delivery returns immediately with the states
reached so far. -/
def fanoutLoop (srv : ExternalServer) (event : Nat) :
    List (UA_MonitoredItem × QueueState) →
    UA_StatusCode × List (UA_MonitoredItem × QueueState)
  | [] => (UA_STATUSCODE_GOOD, [])
  | (mon, qs) :: rest =>
    if (UA_Event_addEventToMonitoredItem srv event mon qs).1 ≠
        UA_STATUSCODE_GOOD then
      ((UA_Event_addEventToMonitoredItem srv event mon qs).1,
       (mon, (UA_Event_addEventToMonitoredItem srv event mon qs).2) :: rest)
    else
      ((fanoutLoop srv event rest).1,
       (mon, (UA_Event_addEventToMonitoredItem srv event mon qs).2) ::
         (fanoutLoop srv event rest).2)

/-- `UA_Server_getEventId` (lines 49-83): translate a one-element
HasProperty path to the `EventId` property (no subtype expansion), fail
with the browse status on a bad status or an empty target list, then read
the value, failing with the read status on a bad read. -/
def UA_Server_getEventId (srv : ExternalServer) (eventNode : Nat) :
    UA_StatusCode × UA_Variant :=
  if bprFailed (srv.translate eventNode UA_NS0ID_HASPROPERTY nameEventId 1) then
    ((srv.translate eventNode UA_NS0ID_HASPROPERTY nameEventId 1).statusCode,
     UA_Variant.empty)
  else if (srv.readValue
      (srv.translate eventNode UA_NS0ID_HASPROPERTY nameEventId 1).target0).1 ≠
      UA_STATUSCODE_GOOD then
    ((srv.readValue
       (srv.translate eventNode UA_NS0ID_HASPROPERTY nameEventId 1).target0).1,
     UA_Variant.empty)
  else
    ((srv.readValue
       (srv.translate eventNode UA_NS0ID_HASPROPERTY nameEventId 1).target0).1,
     (srv.readValue
       (srv.translate eventNode UA_NS0ID_HASPROPERTY nameEventId 1).target0).2)

/-- `eventSetConstants` (lines 344-376): resolve `SourceNode`, then
`ReceiveTime`, returning the browse status on a failed resolution; the
statuses of the two external `UA_Server_writeValue` calls are discarded by
the source. -/
def eventSetConstants (srv : ExternalServer) (event : Nat) : UA_StatusCode :=
  if bprFailed (serverFindVariableNode srv event nameSourceNode 1) then
    (serverFindVariableNode srv event nameSourceNode 1).statusCode
  else if bprFailed (serverFindVariableNode srv event nameReceiveTime 1) then
    (serverFindVariableNode srv event nameReceiveTime 1).statusCode
  else UA_STATUSCODE_GOOD

/-- The state `UA_Server_triggerEvent` acts on: the flattened watcher
list with their queue pairs, whether the event instance is still present
in the object store, and whether the constant-population step has run
(it writes `SourceNode` / `ReceiveTime` on the instance). -/
structure EventSystemState where
  watchers : List (UA_MonitoredItem × QueueState)
  eventAlive : Bool
  constantsSet : Bool
deriving DecidableEq

/-- `UA_Server_triggerEvent` (lines 428-491): check the origin against the
ObjectsFolder tree under Organizes/HasComponent, populate the constants,
fan out to every watcher, extract the `EventId`, and only after a
successful extraction delete the event instance (a failed external delete
leaves the instance in the store and returns the delete status). -/
def UA_Server_triggerEvent (srv : ExternalServer) (event : Nat)
    (origin : Nat) (s : EventSystemState) : UA_StatusCode × EventSystemState :=
  if !(srv.inObjectsFolderTree origin) then
    (UA_STATUSCODE_BADINVALIDARGUMENT, s)
  else if eventSetConstants srv event ≠ UA_STATUSCODE_GOOD then
    (eventSetConstants srv event, { s with constantsSet := true })
  else if (fanoutLoop srv event s.watchers).1 ≠ UA_STATUSCODE_GOOD then
    ((fanoutLoop srv event s.watchers).1,
     { s with constantsSet := true,
              watchers := (fanoutLoop srv event s.watchers).2 })
  else if (UA_Server_getEventId srv event).1 ≠ UA_STATUSCODE_GOOD then
    ((UA_Server_getEventId srv event).1,
     { s with constantsSet := true,
              watchers := (fanoutLoop srv event s.watchers).2 })
  else if srv.deleteNodeStatus ≠ UA_STATUSCODE_GOOD then
    (srv.deleteNodeStatus,
     { s with constantsSet := true,
              watchers := (fanoutLoop srv event s.watchers).2 })
  else
    (UA_STATUSCODE_GOOD,
     { s with constantsSet := true,
              watchers := (fanoutLoop srv event s.watchers).2,
              eventAlive := false })

/-- External collaborators of `UA_Server_createEvent`, threading an
abstract object-store state `σ`.  `isSubtypeOfBase T` is
`isNodeInTree(T, BaseEventType, HasSubtype)`; `generateIdStatus` is the
allocation outcome inside `UA_Event_generateEventId`; `addObjectNode`
allocates the instance and yields its node id; `aggregatesSubtypes` /
`aggregatesIterStatus` / `translate` feed `UA_Event_findVariableNode` as
in `ExternalServer`; `writeValue s target` is `UA_Server_writeValue`. -/
structure CreateStoreOps (σ : Type) where
  isSubtypeOfBase : Nat → Bool
  generateIdStatus : UA_StatusCode
  addObjectNode : σ → UA_StatusCode × σ × Nat
  aggregatesSubtypes : σ → List Nat
  aggregatesIterStatus : σ → UA_StatusCode
  translate : σ → Nat → Nat → Nat → Nat → UA_BrowsePathResult
  writeValue : σ → Nat → UA_StatusCode × σ

/-- The `UA_Event_findVariableNode` call of line 206 (locate the `EventId`
variable of the fresh instance). -/
def createEventIdBpr {σ : Type} (ops : CreateStoreOps σ) (s : σ)
    (outNode : Nat) : UA_BrowsePathResult :=
  UA_Event_findVariableNode (ops.aggregatesIterStatus s)
    (ops.aggregatesSubtypes s)
    (fun k => ops.translate s outNode k nameEventId 1)
    UA_BrowsePathResult.initial

/-- The `UA_Event_findVariableNode` call of line 220 (locate the
`EventType` variable of the fresh instance). -/
def createEventTypeBpr {σ : Type} (ops : CreateStoreOps σ) (s : σ)
    (outNode : Nat) : UA_BrowsePathResult :=
  UA_Event_findVariableNode (ops.aggregatesIterStatus s)
    (ops.aggregatesSubtypes s)
    (fun k => ops.translate s outNode k nameEventType 1)
    UA_BrowsePathResult.initial

/-- `UA_Server_createEvent` (lines 156-232): validate the event type
against the BaseEventType subtype tree (BadInvalidArgument otherwise,
before anything touches the store), generate the id, allocate the
instance, then locate and write the `EventId` and `EventType` variables.
Line 207 checks only the browse status (not the target count); the write
statuses of lines 214 and 225 are discarded, and the function ends with
`return retval`, where `retval` still holds the Good status of the
`UA_Server_addObjectNode` call. -/
def UA_Server_createEvent {σ : Type} (ops : CreateStoreOps σ)
    (eventType : Nat) (s : σ) : UA_StatusCode × σ × Option Nat :=
  if !(ops.isSubtypeOfBase eventType) then
    (UA_STATUSCODE_BADINVALIDARGUMENT, s, none)
  else if ops.generateIdStatus ≠ UA_STATUSCODE_GOOD then
    (ops.generateIdStatus, s, none)
  else
    match ops.addObjectNode s with
    | (addStatus, s1, outNode) =>
      if addStatus ≠ UA_STATUSCODE_GOOD then (addStatus, s1, none)
      else if (createEventIdBpr ops s1 outNode).statusCode ≠
          UA_STATUSCODE_GOOD then
        ((createEventIdBpr ops s1 outNode).statusCode, s1, some outNode)
      else
        match ops.writeValue s1 (createEventIdBpr ops s1 outNode).target0 with
        | (_writeStatus1, s2) =>
          if bprFailed (createEventTypeBpr ops s2 outNode) then
            ((createEventTypeBpr ops s2 outNode).statusCode, s2, some outNode)
          else
            match ops.writeValue s2
                (createEventTypeBpr ops s2 outNode).target0 with
            | (_writeStatus2, s3) => (addStatus, s3, some outNode)

/-- A clause reaches the value-read step (and hence the where-clause
check) when neither the type check of lines 301-302 nor the path
resolution of lines 310-314 rejects it. -/
def clauseReaches (srv : ExternalServer) (typeDef0 ev : Nat)
    (c : UA_SimpleAttributeOperand) : Bool :=
  !(clauseTypeMismatch srv c typeDef0 ev) && !(bprFailed (clauseBprOf srv ev c))

/-! ### Concrete server fixtures used by the witnesses -/

/-- A server on which every external operation succeeds: one discovered
aggregation subtype (HasProperty), every browse path resolves to node
`1000 + name`, every read yields that node id as payload. -/
def goodServer : ExternalServer :=
  { aggregatesSubtypes := [UA_NS0ID_HASPROPERTY],
    aggregatesIterStatus := UA_STATUSCODE_GOOD,
    translate := fun _start _k name _size =>
      { statusCode := UA_STATUSCODE_GOOD, targetsSize := 1,
        target0 := 1000 + name },
    readValue := fun n => (UA_STATUSCODE_GOOD, UA_Variant.val n),
    isSubtypeOf := fun _ _ => true,
    inObjectsFolderTree := fun _ => true,
    ensureQueueSpace := id,
    deleteNodeStatus := UA_STATUSCODE_GOOD }

def qsEmpty : QueueState := ⟨[], 0, [], 0⟩

/-- A watcher whose single clause selects `EventId` at the base event
type. -/
def monBase : UA_MonitoredItem :=
  ⟨⟨[⟨UA_NS0ID_BASEEVENTTYPE, nameEventId, 1⟩], 0⟩⟩

/-- A watcher whose filter has no select clauses (its delivery fails with
BadEventFilterInvalid). -/
def monNoClauses : UA_MonitoredItem := ⟨⟨[], 0⟩⟩

def stateOne : EventSystemState := ⟨[(monBase, qsEmpty)], true, false⟩

/-! ### Claim theorems -/

/-- Claim C6: for every event type not in the BaseEventType subtype
closure, `UA_Server_createEvent` fails with BadInvalidArgument and the
object store is returned unmodified, with no instance allocated. -/
theorem C6_createEvent_invalid_type {σ : Type} (ops : CreateStoreOps σ)
    (eventType : Nat) (s : σ)
    (h : ops.isSubtypeOfBase eventType = false) :
    UA_Server_createEvent ops eventType s =
      (UA_STATUSCODE_BADINVALIDARGUMENT, s, none) := by
  simp [UA_Server_createEvent, h]

/-- Store oracle for the createEvent witnesses: the store is the list of
node ids written so far; only type 5000 is below BaseEventType. -/
def createOpsW : CreateStoreOps (List Nat) :=
  { isSubtypeOfBase := fun t => t == 5000,
    generateIdStatus := UA_STATUSCODE_GOOD,
    addObjectNode := fun s => (UA_STATUSCODE_GOOD, s, 7),
    aggregatesSubtypes := fun _ => [UA_NS0ID_HASPROPERTY],
    aggregatesIterStatus := fun _ => UA_STATUSCODE_GOOD,
    translate := fun _ _start _k name _size =>
      { statusCode := UA_STATUSCODE_GOOD, targetsSize := 1,
        target0 := 1000 + name },
    writeValue := fun s t => (UA_STATUSCODE_GOOD, s ++ [t]) }

theorem C6_createEvent_invalid_type_witness :
    UA_Server_createEvent createOpsW 9 [] =
      (UA_STATUSCODE_BADINVALIDARGUMENT, ([] : List Nat), none) :=
  C6_createEvent_invalid_type createOpsW 9 [] (by decide)

/-- Claim C7: for every origin outside the ObjectsFolder tree under the
two accepted reference kinds, `UA_Server_triggerEvent` fails with
BadInvalidArgument and the whole state — watcher queues, event instance,
instance properties — is unchanged. -/
theorem C7_triggerEvent_invalid_origin (srv : ExternalServer)
    (ev origin : Nat) (s : EventSystemState)
    (h : srv.inObjectsFolderTree origin = false) :
    UA_Server_triggerEvent srv ev origin s =
      (UA_STATUSCODE_BADINVALIDARGUMENT, s) := by
  simp [UA_Server_triggerEvent, h]

def srvNoFolder : ExternalServer :=
  { goodServer with inObjectsFolderTree := fun _ => false }

theorem C7_triggerEvent_invalid_origin_witness :
    UA_Server_triggerEvent srvNoFolder 50 60 stateOne =
      (UA_STATUSCODE_BADINVALIDARGUMENT, stateOne) :=
  C7_triggerEvent_invalid_origin srvNoFolder 50 60 stateOne rfl

/-- Claim C3: `UA_Event_addEventToMonitoredItem` is atomic per watcher: a
non-Good filter status is propagated with both queues and both size
counters untouched; on success the same notification is appended to the
watcher's queue and to the subscription's global queue, and both size
counters are incremented in the same step. -/
theorem C3_addEvent_atomic (srv : ExternalServer) (event : Nat)
    (mon : UA_MonitoredItem) (qs : QueueState) :
    ((UA_Server_filterEvent srv event mon.eventFilter).1 ≠
        UA_STATUSCODE_GOOD →
      UA_Event_addEventToMonitoredItem srv event mon qs =
        ((UA_Server_filterEvent srv event mon.eventFilter).1, qs))
    ∧ ((UA_Server_filterEvent srv event mon.eventFilter).1 =
        UA_STATUSCODE_GOOD →
      UA_Event_addEventToMonitoredItem srv event mon qs =
        (UA_STATUSCODE_GOOD,
         { monQueue := (srv.ensureQueueSpace qs).monQueue ++
             [(UA_Server_filterEvent srv event mon.eventFilter).2],
           monQueueSize := (srv.ensureQueueSpace qs).monQueueSize + 1,
           subQueue := (srv.ensureQueueSpace qs).subQueue ++
             [(UA_Server_filterEvent srv event mon.eventFilter).2],
           subQueueSize := (srv.ensureQueueSpace qs).subQueueSize + 1 })) := by
  constructor <;> intro h <;> simp [UA_Event_addEventToMonitoredItem, h]

theorem C3_addEvent_atomic_witness :
    UA_Event_addEventToMonitoredItem goodServer 50 monBase qsEmpty =
      (UA_STATUSCODE_GOOD,
       ⟨[[UA_Variant.val 1000]], 1, [[UA_Variant.val 1000]], 1⟩) :=
  (C3_addEvent_atomic goodServer 50 monBase qsEmpty).2 (by decide)

lemma findVariableNodeLoop_all_fail (translate : Nat → UA_BrowsePathResult) :
    ∀ (kinds : List Nat) (out : UA_BrowsePathResult) (hne : kinds ≠ []),
      (∀ k ∈ kinds, (translate k).statusCode ≠ UA_STATUSCODE_GOOD) →
      findVariableNodeLoop translate kinds out =
        translate (kinds.getLast hne) := by
  intro kinds
  induction kinds with
  | nil => intro out hne _; exact absurd rfl hne
  | cons k rest ih =>
    intro out hne hall
    have hk : (translate k).statusCode ≠ UA_STATUSCODE_GOOD :=
      hall k (List.mem_cons_self _ _)
    rw [findVariableNodeLoop]
    rw [if_neg (by simpa using hk)]
    cases rest with
    | nil => simp [findVariableNodeLoop]
    | cons r rs =>
      have hne2 : r :: rs ≠ [] := by simp
      rw [ih (translate k) hne2
        (fun j hj => hall j (List.mem_cons_of_mem _ hj))]
      rw [List.getLast_cons hne2]

lemma findVariableNodeLoop_first_success
    (translate : Nat → UA_BrowsePathResult) :
    ∀ (pre : List Nat) (k : Nat) (post : List Nat)
      (out : UA_BrowsePathResult),
      (∀ j ∈ pre, (translate j).statusCode ≠ UA_STATUSCODE_GOOD) →
      (translate k).statusCode = UA_STATUSCODE_GOOD →
      findVariableNodeLoop translate (pre ++ k :: post) out = translate k := by
  intro pre
  induction pre with
  | nil =>
    intro k post out _ hk
    rw [List.nil_append, findVariableNodeLoop, if_pos (by simpa using hk)]
  | cons p pre ih =>
    intro k post out hpre hk
    have hp : (translate p).statusCode ≠ UA_STATUSCODE_GOOD :=
      hpre p (List.mem_cons_self _ _)
    rw [List.cons_append, findVariableNodeLoop,
      if_neg (by simpa using hp)]
    exact ih k post (translate p)
      (fun j hj => hpre j (List.mem_cons_of_mem _ hj)) hk

/-- Claim C9: `UA_Event_findVariableNode` returns the first successful
relative-path resolution obtained by trying the discovered relation
subtypes in turn; when no relation kind yields a resolution it returns the
underlying resolution result of the last attempt — in particular, when
every attempt reports no-match (NotFound) it fails with no-match, and a
different underlying path-resolution error code is propagated as is. -/
theorem C9_findVariableNode_resolution (iterStatus : UA_StatusCode)
    (kinds : List Nat) (translate : Nat → UA_BrowsePathResult)
    (out0 : UA_BrowsePathResult) (hne : kinds ≠ []) :
    ((∀ k ∈ kinds, (translate k).statusCode ≠ UA_STATUSCODE_GOOD) →
       UA_Event_findVariableNode iterStatus kinds translate out0 =
         translate (kinds.getLast hne))
    ∧ (∀ pre k post, kinds = pre ++ k :: post →
        (∀ j ∈ pre, (translate j).statusCode ≠ UA_STATUSCODE_GOOD) →
        (translate k).statusCode = UA_STATUSCODE_GOOD →
        UA_Event_findVariableNode iterStatus kinds translate out0 =
          translate k)
    ∧ ((∀ k ∈ kinds, (translate k).statusCode = UA_STATUSCODE_BADNOMATCH) →
       (UA_Event_findVariableNode iterStatus kinds translate out0).statusCode =
         UA_STATUSCODE_BADNOMATCH) := by
  refine ⟨fun hall => ?_, fun pre k post hsplit hpre hk => ?_, fun hall => ?_⟩
  · exact findVariableNodeLoop_all_fail translate kinds _ hne hall
  · rw [UA_Event_findVariableNode, hsplit]
    exact findVariableNodeLoop_first_success translate pre k post _ hpre hk
  · have hall2 : ∀ k ∈ kinds,
        (translate k).statusCode ≠ UA_STATUSCODE_GOOD := by
      intro k hk
      rw [hall k hk]
      decide
    have h := findVariableNodeLoop_all_fail translate kinds
      (if iterStatus ≠ UA_STATUSCODE_GOOD
       then { out0 with statusCode := iterStatus } else out0) hne hall2
    rw [UA_Event_findVariableNode, h]
    exact hall (kinds.getLast hne) (List.getLast_mem hne)

/-- Resolver fixture for the C9 witness: reference kind 47 resolves,
everything else reports no-match. -/
def translate47 : Nat → UA_BrowsePathResult := fun k =>
  if k == 47 then
    { statusCode := UA_STATUSCODE_GOOD, targetsSize := 1, target0 := 99 }
  else
    { statusCode := UA_STATUSCODE_BADNOMATCH, targetsSize := 0, target0 := 0 }

theorem C9_findVariableNode_resolution_witness :
    UA_Event_findVariableNode UA_STATUSCODE_GOOD [46, 47] translate47
        UA_BrowsePathResult.initial = translate47 47 :=
  (C9_findVariableNode_resolution UA_STATUSCODE_GOOD [46, 47] translate47
      UA_BrowsePathResult.initial (by decide)).2.1
    [46] 47 [] rfl (by decide) (by decide)

/-- Claim C5: when `UA_Server_getEventId` reports a non-Good status after
a successful fan-out, `UA_Server_triggerEvent` returns that status and the
event instance is not deleted (`eventAlive` keeps its value); the instance
is deleted only when the id extraction returned Good. -/
theorem C5_triggerEvent_keeps_instance_on_id_failure (srv : ExternalServer)
    (ev origin : Nat) (s : EventSystemState)
    (horig : srv.inObjectsFolderTree origin = true)
    (hconst : eventSetConstants srv ev = UA_STATUSCODE_GOOD)
    (hfan : (fanoutLoop srv ev s.watchers).1 = UA_STATUSCODE_GOOD) :
    ((UA_Server_getEventId srv ev).1 ≠ UA_STATUSCODE_GOOD →
      UA_Server_triggerEvent srv ev origin s =
        ((UA_Server_getEventId srv ev).1,
         { s with constantsSet := true,
                  watchers := (fanoutLoop srv ev s.watchers).2 }))
    ∧ (s.eventAlive = true →
       (UA_Server_triggerEvent srv ev origin s).2.eventAlive = false →
       (UA_Server_getEventId srv ev).1 = UA_STATUSCODE_GOOD) := by
  constructor
  · intro hg
    simp [UA_Server_triggerEvent, horig, hconst, hfan, hg]
  · intro halive hdead
    by_cases hg : (UA_Server_getEventId srv ev).1 = UA_STATUSCODE_GOOD
    · exact hg
    · exfalso
      simp [UA_Server_triggerEvent, horig, hconst, hfan, hg] at hdead
      rw [halive] at hdead
      simp at hdead

/-- Server fixture for the C5 witness: browse paths resolve, but every
value read fails, so the id extraction fails with BadInternalError while
filter evaluation still succeeds (a failed field read only leaves the
field empty). -/
def srvBadRead : ExternalServer :=
  { goodServer with
    readValue := fun _ => (UA_STATUSCODE_BADINTERNALERROR, UA_Variant.empty) }

theorem C5_triggerEvent_keeps_instance_on_id_failure_witness :
    UA_Server_triggerEvent srvBadRead 50 60 stateOne =
      ((UA_Server_getEventId srvBadRead 50).1,
       { stateOne with constantsSet := true,
                       watchers := (fanoutLoop srvBadRead 50
                         stateOne.watchers).2 }) :=
  (C5_triggerEvent_keeps_instance_on_id_failure srvBadRead 50 60 stateOne
      rfl (by decide) (by decide)).1 (by decide)

lemma fanoutLoop_append_fail (srv : ExternalServer) (event : Nat)
    (pre : List (UA_MonitoredItem × QueueState)) (m : UA_MonitoredItem)
    (q : QueueState) (post : List (UA_MonitoredItem × QueueState))
    (hpre : ∀ p ∈ pre, (UA_Event_addEventToMonitoredItem srv event p.1 p.2).1 =
      UA_STATUSCODE_GOOD)
    (hfail : (UA_Event_addEventToMonitoredItem srv event m q).1 ≠
      UA_STATUSCODE_GOOD) :
    fanoutLoop srv event (pre ++ (m, q) :: post) =
      ((UA_Event_addEventToMonitoredItem srv event m q).1,
       pre.map (fun p =>
           (p.1, (UA_Event_addEventToMonitoredItem srv event p.1 p.2).2))
         ++ (m, (UA_Event_addEventToMonitoredItem srv event m q).2) :: post) := by
  induction pre with
  | nil => simp [fanoutLoop, hfail]
  | cons p pre ih =>
    obtain ⟨mon, qs⟩ := p
    have hp : (UA_Event_addEventToMonitoredItem srv event mon qs).1 =
        UA_STATUSCODE_GOOD := hpre (mon, qs) (List.mem_cons_self _ _)
    have hih := ih (fun x hx => hpre x (List.mem_cons_of_mem _ hx))
    simp only [List.cons_append, fanoutLoop, hp, hih, List.map_cons]
    simp [hih]

/-- Claim C4: during the fan-out of `UA_Server_triggerEvent`, the first
per-watcher delivery error aborts the remaining deliveries and is returned
to the caller, while the notifications already enqueued for the earlier
watchers stay enqueued (their delivered queue states are kept, nothing is
rolled back) and the watchers after the failing one are untouched. -/
theorem C4_triggerEvent_partial_delivery (srv : ExternalServer)
    (ev origin : Nat) (s : EventSystemState)
    (pre : List (UA_MonitoredItem × QueueState)) (m : UA_MonitoredItem)
    (q : QueueState) (post : List (UA_MonitoredItem × QueueState))
    (horig : srv.inObjectsFolderTree origin = true)
    (hconst : eventSetConstants srv ev = UA_STATUSCODE_GOOD)
    (hs : s.watchers = pre ++ (m, q) :: post)
    (hpre : ∀ p ∈ pre, (UA_Event_addEventToMonitoredItem srv ev p.1 p.2).1 =
      UA_STATUSCODE_GOOD)
    (hfail : (UA_Event_addEventToMonitoredItem srv ev m q).1 ≠
      UA_STATUSCODE_GOOD) :
    UA_Server_triggerEvent srv ev origin s =
      ((UA_Event_addEventToMonitoredItem srv ev m q).1,
       { s with
         constantsSet := true
         watchers := pre.map (fun p =>
             (p.1, (UA_Event_addEventToMonitoredItem srv ev p.1 p.2).2))
           ++ (m, (UA_Event_addEventToMonitoredItem srv ev m q).2)
             :: post }) := by
  have hfan := fanoutLoop_append_fail srv ev pre m q post hpre hfail
  rw [← hs] at hfan
  simp [UA_Server_triggerEvent, horig, hconst, hfan, hfail]

/-- State for the C4 witness: a succeeding watcher, then one whose filter
has no clauses (its delivery fails with BadEventFilterInvalid), then a
third watcher that the abort must leave untouched. -/
def stateThree : EventSystemState :=
  ⟨[(monBase, qsEmpty), (monNoClauses, qsEmpty), (monBase, qsEmpty)],
   true, false⟩

theorem C4_triggerEvent_partial_delivery_witness :
    UA_Server_triggerEvent goodServer 50 60 stateThree =
      ((UA_Event_addEventToMonitoredItem goodServer 50 monNoClauses
          qsEmpty).1,
       { stateThree with
         constantsSet := true
         watchers := [(monBase, qsEmpty)].map (fun p =>
             (p.1, (UA_Event_addEventToMonitoredItem goodServer 50 p.1
               p.2).2))
           ++ (monNoClauses, (UA_Event_addEventToMonitoredItem goodServer 50
                 monNoClauses qsEmpty).2)
             :: [(monBase, qsEmpty)] }) :=
  C4_triggerEvent_partial_delivery goodServer 50 60 stateThree
    [(monBase, qsEmpty)] monNoClauses qsEmpty [(monBase, qsEmpty)]
    rfl (by decide) rfl (by decide) (by decide)

lemma filterEventLoop_length (srv : ExternalServer) (w td ev : Nat) :
    ∀ cs : List UA_SimpleAttributeOperand,
      (filterEventLoop srv w td ev cs).2.length = cs.length := by
  intro cs
  induction cs with
  | nil => simp [filterEventLoop]
  | cons c rest ih =>
    simp only [filterEventLoop]
    split_ifs <;> simp [ih]

lemma filterEventLoop_failed_empty (srv : ExternalServer) (w td ev : Nat) :
    ∀ (cs : List UA_SimpleAttributeOperand) (i : Nat)
      (c : UA_SimpleAttributeOperand), cs[i]? = some c →
      (clauseTypeMismatch srv c td ev = true
       ∨ bprFailed (clauseBprOf srv ev c) = true
       ∨ (srv.readValue (clauseBprOf srv ev c).target0).1 ≠
           UA_STATUSCODE_GOOD) →
      (filterEventLoop srv w td ev cs).2[i]? = some UA_Variant.empty := by
  intro cs
  induction cs with
  | nil => intro i c hc _; simp at hc
  | cons c0 rest ih =>
    intro i c hc hfail
    have hread : clauseTypeMismatch srv c0 td ev = false →
        bprFailed (clauseBprOf srv ev c0) = false → i = 0 → c = c0 →
        clauseField srv ev c0 = UA_Variant.empty := by
      intro hm hb hi hcc
      subst hcc
      rcases hfail with h | h | h
      · rw [hm] at h; exact absurd h (by simp)
      · rw [hb] at h; exact absurd h (by simp)
      · rw [clauseField, if_neg (by simpa using h)]
    match i with
    | 0 =>
      rw [List.getElem?_cons_zero, Option.some_inj] at hc
      simp only [filterEventLoop]
      split_ifs with h1 h2 h3 h4
      · simp
      · simp
      · simp [hread (by simpa using h1) (by simpa using h2) rfl hc.symm]
      · simp [hread (by simpa using h1) (by simpa using h2) rfl hc.symm]
      · simp
    | i + 1 =>
      rw [List.getElem?_cons_succ] at hc
      have hlt : i < rest.length := (List.getElem?_eq_some.1 hc).1
      have hrec := ih i c hc hfail
      simp only [filterEventLoop]
      split_ifs <;>
        simp [List.getElem?_cons_succ, hrec, List.getElem?_replicate, hlt]

/-- Claim C1: for every filter with at least one select clause,
`UA_Server_filterEvent` produces a field list whose length equals the
select-clause count, positionally aligned, and every clause rejected by
the type check, failed path resolution, or failed value read contributes
the empty variant at its own index — it is never omitted, no matter how
many clauses fail. -/
theorem C1_filterEvent_full_length_placeholders (srv : ExternalServer)
    (ev : Nat) (f : UA_EventFilter) (hne : f.selectClauses ≠ []) :
    ((UA_Server_filterEvent srv ev f).2.length = f.selectClauses.length)
    ∧ (∀ (i : Nat) (c : UA_SimpleAttributeOperand),
        f.selectClauses[i]? = some c →
        (clauseTypeMismatch srv c (filterTypeDef0 f) ev = true
         ∨ bprFailed (clauseBprOf srv ev c) = true
         ∨ (srv.readValue (clauseBprOf srv ev c).target0).1 ≠
             UA_STATUSCODE_GOOD) →
        (UA_Server_filterEvent srv ev f).2[i]? = some UA_Variant.empty) := by
  obtain ⟨c0, rest, hsel⟩ : ∃ c0 rest, f.selectClauses = c0 :: rest := by
    cases h : f.selectClauses with
    | nil => exact absurd h hne
    | cons a l => exact ⟨a, l, rfl⟩
  have htd : filterTypeDef0 f = c0.typeDefinitionId := by
    rw [filterTypeDef0, hsel]
  constructor
  · simp only [UA_Server_filterEvent, hsel]
    rw [filterEventLoop_length]
  · intro i c hc hfail
    rw [htd] at hfail
    rw [hsel] at hc
    simp only [UA_Server_filterEvent, hsel]
    exact filterEventLoop_failed_empty srv f.whereClauseSize
      c0.typeDefinitionId ev (c0 :: rest) i c hc hfail

/-- Server fixture for the C1 witness: browse paths for name 9 report
no-match, every other name resolves. -/
def srvName9Fails : ExternalServer :=
  { goodServer with
    translate := fun _start _k name _size =>
      if name == 9 then
        { statusCode := UA_STATUSCODE_BADNOMATCH, targetsSize := 0,
          target0 := 0 }
      else
        { statusCode := UA_STATUSCODE_GOOD, targetsSize := 1,
          target0 := 1000 + name } }

/-- Two clauses; the second one's path (name 9) does not resolve. -/
def filterTwoClauses : UA_EventFilter :=
  ⟨[⟨UA_NS0ID_BASEEVENTTYPE, nameEventId, 1⟩,
    ⟨UA_NS0ID_BASEEVENTTYPE, 9, 1⟩], 0⟩

theorem C1_filterEvent_full_length_placeholders_witness :
    ((UA_Server_filterEvent srvName9Fails 50 filterTwoClauses).2.length =
      filterTwoClauses.selectClauses.length)
    ∧ (UA_Server_filterEvent srvName9Fails 50 filterTwoClauses).2[1]? =
        some UA_Variant.empty := by
  have h := C1_filterEvent_full_length_placeholders srvName9Fails 50
    filterTwoClauses (by decide)
  exact ⟨h.1, h.2 1 ⟨UA_NS0ID_BASEEVENTTYPE, 9, 1⟩ (by decide)
    (Or.inr (Or.inl (by decide)))⟩

/-- Server fixture for C2: every path resolves and reads, and the event's
resolved `EventType` node is in the subtype tree of type 5001 but not of
type 5000. -/
def srvTwoTypes : ExternalServer :=
  { goodServer with isSubtypeOf := fun _node parent => parent == 5001 }

/-- Filter for C2: clause 0 declares type 5000 (which the event does not
match), clause 1 declares type 5001 (which the event does match). -/
def filterTwoTypes : UA_EventFilter :=
  ⟨[⟨5000, nameEventId, 1⟩, ⟨5001, nameSourceNode, 1⟩], 0⟩

/-- Claim C2 (divergence witness): the source checks the event type
against `selectClauses[0].typeDefinitionId` for every clause index
(line 302), not against clause i's own declared type.  On this input the
event's actual type is in the subtype closure of clause 1's declared type
(first conjunct), clause 1's path resolves (second) and its value reads
back Good (third), yet `UA_Server_filterEvent` still leaves field 1 empty
(fourth) because clause 0's declared type does not match — contradicting
the per-clause type check the claim describes. -/
theorem C2_typecheck_uses_clause_zero :
    isValidEvent srvTwoTypes 5001 50 = true
    ∧ bprFailed (clauseBprOf srvTwoTypes 50 ⟨5001, nameSourceNode, 1⟩) = false
    ∧ (srvTwoTypes.readValue
        (clauseBprOf srvTwoTypes 50 ⟨5001, nameSourceNode, 1⟩).target0).1 =
        UA_STATUSCODE_GOOD
    ∧ (UA_Server_filterEvent srvTwoTypes 50 filterTwoTypes).2 =
        [UA_Variant.empty, UA_Variant.empty] := by
  decide

lemma filterEventLoop_whereClause_abort (srv : ExternalServer)
    (ev td w : Nat) (hw : w ≠ 0) :
    ∀ (pre : List UA_SimpleAttributeOperand) (c : UA_SimpleAttributeOperand)
      (post : List UA_SimpleAttributeOperand),
      (∀ x ∈ pre, clauseReaches srv td ev x = false) →
      clauseReaches srv td ev c = true →
      filterEventLoop srv w td ev (pre ++ c :: post) =
        (UA_STATUSCODE_BADNOTSUPPORTED,
         List.replicate pre.length UA_Variant.empty ++
           clauseField srv ev c ::
             List.replicate post.length UA_Variant.empty) := by
  intro pre
  induction pre with
  | nil =>
    intro c post _ hc
    rw [clauseReaches, Bool.and_eq_true, Bool.not_eq_true',
      Bool.not_eq_true'] at hc
    simp only [List.nil_append, List.length_nil, List.replicate_zero]
    simp only [filterEventLoop]
    rw [if_neg (by simp [hc.1]), if_neg (by simp [hc.2])]
    rw [if_pos (by simp [whereClausesApply, hw]),
      if_pos (by simp [whereClausesApply, hw])]
  | cons x pre ih =>
    intro c post hpre hc
    have hx : clauseReaches srv td ev x = false :=
      hpre x (List.mem_cons_self _ _)
    have hih := ih c post (fun y hy => hpre y (List.mem_cons_of_mem _ hy)) hc
    rw [clauseReaches, Bool.and_eq_false_iff] at hx
    simp only [List.cons_append, List.length_cons, List.replicate_succ]
    rcases hx with hx | hx
    · have hx2 : clauseTypeMismatch srv x td ev = true := by simpa using hx
      simp only [filterEventLoop]
      rw [if_pos hx2, hih]
    · have hx2 : bprFailed (clauseBprOf srv ev x) = true := by simpa using hx
      simp only [filterEventLoop]
      by_cases hm : clauseTypeMismatch srv x td ev = true
      · rw [if_pos hm, hih]
      · rw [if_neg hm, if_pos hx2, hih]

/-- Claim C8, counterexample to the claim as stated: a filter with a
non-empty where-clause whose single clause fails path resolution is
evaluated to a Good status — `UA_Server_filterEvent` completes the pass
without ever reporting NotSupported, because `whereClausesApply` only runs
for a clause that passed the type check and path resolution. -/
theorem C8_whereClause_good_counterexample :
    (⟨[⟨UA_NS0ID_BASEEVENTTYPE, 9, 1⟩], 1⟩ :
        UA_EventFilter).whereClauseSize ≠ 0
    ∧ UA_Server_filterEvent srvName9Fails 50
        ⟨[⟨UA_NS0ID_BASEEVENTTYPE, 9, 1⟩], 1⟩ =
        (UA_STATUSCODE_GOOD, [UA_Variant.empty]) := by
  decide

/-- Claim C8, amended: when the supplied where-clause is non-empty,
`UA_Server_filterEvent` reports NotSupported exactly on reaching the first
clause that passes the type check and path resolution; evaluation stops
immediately after that clause — its resolved value is still read into its
field — and every subsequent field is left empty instead of completing
the full pass.  (If no clause passes both checks, the pass completes with
a Good status, as the counterexample shows.) -/
theorem C8_whereClause_abort (srv : ExternalServer) (ev : Nat)
    (f : UA_EventFilter) (pre : List UA_SimpleAttributeOperand)
    (c : UA_SimpleAttributeOperand) (post : List UA_SimpleAttributeOperand)
    (hw : f.whereClauseSize ≠ 0)
    (hsplit : f.selectClauses = pre ++ c :: post)
    (hpre : ∀ x ∈ pre, clauseReaches srv (filterTypeDef0 f) ev x = false)
    (hc : clauseReaches srv (filterTypeDef0 f) ev c = true) :
    UA_Server_filterEvent srv ev f =
      (UA_STATUSCODE_BADNOTSUPPORTED,
       List.replicate pre.length UA_Variant.empty ++
         clauseField srv ev c ::
           List.replicate post.length UA_Variant.empty) := by
  obtain ⟨c0, rest, hsel⟩ : ∃ c0 rest, f.selectClauses = c0 :: rest := by
    cases h : f.selectClauses with
    | nil =>
      rw [h] at hsplit
      exact absurd hsplit.symm (List.append_ne_nil_of_right_ne_nil _ (by simp))
    | cons a l => exact ⟨a, l, rfl⟩
  have htd : filterTypeDef0 f = c0.typeDefinitionId := by
    rw [filterTypeDef0, hsel]
  rw [htd] at hpre hc
  have hlist : c0 :: rest = pre ++ c :: post := by rw [← hsel, hsplit]
  simp only [UA_Server_filterEvent, hsel]
  rw [hlist]
  exact filterEventLoop_whereClause_abort srv ev c0.typeDefinitionId
    f.whereClauseSize hw pre c post hpre hc

/-- Filter for the C8 witness: two resolvable clauses at the base event
type plus a non-empty where-clause. -/
def filterWithWhere : UA_EventFilter :=
  ⟨[⟨UA_NS0ID_BASEEVENTTYPE, nameEventId, 1⟩,
    ⟨UA_NS0ID_BASEEVENTTYPE, nameSourceNode, 1⟩], 1⟩

theorem C8_whereClause_abort_witness :
    UA_Server_filterEvent goodServer 50 filterWithWhere =
      (UA_STATUSCODE_BADNOTSUPPORTED,
       List.replicate 0 UA_Variant.empty ++
         clauseField goodServer 50 ⟨UA_NS0ID_BASEEVENTTYPE, nameEventId, 1⟩ ::
           List.replicate 1 UA_Variant.empty) :=
  C8_whereClause_abort goodServer 50 filterWithWhere []
    ⟨UA_NS0ID_BASEEVENTTYPE, nameEventId, 1⟩
    [⟨UA_NS0ID_BASEEVENTTYPE, nameSourceNode, 1⟩]
    (by decide) rfl (by intro x hx; simp at hx) (by decide)

/-- Claim C10: `UA_Server_createEvent` discards the statuses of the two
`UA_Server_writeValue` calls that store the generated `EventId` and the
`EventType` (lines 214 and 225): whenever the validation, id generation,
allocation and the two property resolutions succeed, the function returns
Good even though both writes report a non-Good status. -/
theorem C10_createEvent_discards_write_status {σ : Type}
    (ops : CreateStoreOps σ) (T : Nat) (s s1 s2 s3 : σ) (n w1 w2 : Nat)
    (ht : ops.isSubtypeOfBase T = true)
    (hg : ops.generateIdStatus = UA_STATUSCODE_GOOD)
    (ha : ops.addObjectNode s = (UA_STATUSCODE_GOOD, s1, n))
    (hb1 : (createEventIdBpr ops s1 n).statusCode = UA_STATUSCODE_GOOD)
    (hw1 : ops.writeValue s1 (createEventIdBpr ops s1 n).target0 = (w1, s2))
    (hw1bad : w1 ≠ UA_STATUSCODE_GOOD)
    (hb2 : bprFailed (createEventTypeBpr ops s2 n) = false)
    (hw2 : ops.writeValue s2 (createEventTypeBpr ops s2 n).target0 = (w2, s3))
    (hw2bad : w2 ≠ UA_STATUSCODE_GOOD) :
    UA_Server_createEvent ops T s = (UA_STATUSCODE_GOOD, s3, some n) := by
  simp [UA_Server_createEvent, ht, hg, ha, hb1, hw1, hb2, hw2]

/-- Store oracle for the C10 witness: identical to `createOpsW` except
that every write fails with BadInternalError and leaves the store — the
list of node ids holding a written value — unchanged.  `createEvent`
still returns Good and the store records no stored `EventId` or
`EventType` value (it is still the empty list). -/
def createOpsBadWrite : CreateStoreOps (List Nat) :=
  { createOpsW with
    writeValue := fun s _t => (UA_STATUSCODE_BADINTERNALERROR, s) }

theorem C10_createEvent_discards_write_status_witness :
    UA_Server_createEvent createOpsBadWrite 5000 [] =
      (UA_STATUSCODE_GOOD, ([] : List Nat), some 7) :=
  C10_createEvent_discards_write_status createOpsBadWrite 5000 [] [] [] []
    7 UA_STATUSCODE_BADINTERNALERROR UA_STATUSCODE_BADINTERNALERROR
    (by decide) rfl (by decide) (by decide) (by decide) (by decide)
    (by decide) (by decide) (by decide)

end UAEvents
